import Mathlib

/-!
Shallow embedding of `src/backend/routers/announcements.py`, the
Announcements API router of the school-application backend, together
with proofs of the CRUD-contract properties stated in the specification.

Modelling conventions:
* timestamps (`datetime`) are natural numbers compared with `<` / `≤`;
* MongoDB `ObjectId` values are their 24-hex-character string form;
  `bson.ObjectId(s)` is `parseObjectId s` (raises ⇔ `none`);
* the collection is a list of documents plus a counter from which the
  store derives fresh `_id` values on insert;
* each HTTP handler is a pure function from (path/body arguments,
  resolved caller, current time, store) to a result together with the
  store after the call; `HTTPException` is the `Except.error` branch;
* FastAPI/pydantic body validation runs before the handler, so each
  route is a `…_endpoint` wrapper that first validates the raw JSON
  body and only then invokes the handler function.
-/

namespace AnnouncementsRouter

/-- Timestamps: `datetime` values, abstracted to naturals (only order matters). -/
abbrev Timestamp := Nat

/-- A stored announcement document (`announcements_collection` entry). -/
structure Announcement where
  _id : String
  message : String
  start_date : Option Timestamp
  expiration_date : Timestamp
  created_at : Timestamp
  updated_at : Timestamp
deriving DecidableEq, Repr

/-- The JSON response shape of the `Announcement` pydantic model:
the handlers return the document with `id = str(_id)` added. -/
structure AnnouncementOut where
  id : String
  message : String
  start_date : Option Timestamp
  expiration_date : Timestamp
  created_at : Timestamp
  updated_at : Timestamp
deriving DecidableEq, Repr

/-- Response shaping `announcement["id"] = str(announcement["_id"])`. -/
def toOut (d : Announcement) : AnnouncementOut :=
  { id := d._id
    message := d.message
    start_date := d.start_date
    expiration_date := d.expiration_date
    created_at := d.created_at
    updated_at := d.updated_at }

/-- The resolved caller identity returned by `get_current_user`:
a dict, of which the handlers only read `current_user.get("role")`
(`none` when the dict has no `"role"` key). -/
structure User where
  role : Option String
deriving DecidableEq, Repr

/-- The role gate used by all four privileged handlers:
`current_user.get("role") not in ["teacher", "admin"]` negated. -/
def isPrivileged (u : User) : Bool :=
  u.role == some "teacher" || u.role == some "admin"

/-- Hex digit test used by `ObjectId` parsing. -/
def isHexChar (c : Char) : Bool :=
  c.isDigit || ('a' ≤ c && c ≤ 'f') || ('A' ≤ c && c ≤ 'F')

/-- `bson.ObjectId(s)`: succeeds exactly on 24-hex-character strings,
normalising to lower case; `none` models the raised `InvalidId`. -/
def parseObjectId (s : String) : Option String :=
  if s.length == 24 && s.data.all isHexChar then
    some (String.mk (s.data.map Char.toLower))
  else none

/-- One hex digit (most significant first) of the generated id. -/
def hexDigitsAux : Nat → Nat → List Char
  | 0, _ => []
  | k + 1, n => hexDigitsAux k (n / 16) ++ [Nat.digitChar (n % 16)]

/-- The store-generated `ObjectId` string for counter value `n`:
24 lower-case hex characters. -/
def genId (n : Nat) : String :=
  String.mk (hexDigitsAux 24 n)

/-- The `announcements_collection` document store: the documents in
native order plus the counter from which fresh ids are generated. -/
structure Store where
  docs : List Announcement
  nextId : Nat
deriving DecidableEq, Repr

/-- `collection.find_one({"_id": oid})`: first document with that id. -/
def Store.find_one (s : Store) (oid : String) : Option Announcement :=
  s.docs.find? (fun d => d._id == oid)

/-- `collection.insert_one(doc)`: the store assigns a fresh `_id` and
appends the document; returns `inserted_id` and the new store. -/
def Store.insert_one (s : Store) (doc : Announcement) : String × Store :=
  let newId := genId s.nextId
  (newId, { docs := s.docs ++ [{ doc with _id := newId }], nextId := s.nextId + 1 })

/-- The `{"$set": update_data}` payload built by `update_announcement`:
`updated_at` is always present, the other fields only when supplied. -/
structure UpdateData where
  updated_at : Timestamp
  message : Option String
  start_date : Option Timestamp
  expiration_date : Option Timestamp
deriving DecidableEq, Repr

/-- Apply a `$set` payload to one document: present fields overwrite,
absent fields are left as stored; `_id` and `created_at` never appear
in `update_data`, so they are untouched. -/
def applySet (upd : UpdateData) (d : Announcement) : Announcement :=
  { d with
    updated_at := upd.updated_at
    message := upd.message.getD d.message
    start_date := match upd.start_date with
      | some t => some t
      | none => d.start_date
    expiration_date := upd.expiration_date.getD d.expiration_date }

/-- Replace the first document whose `_id` is `oid` by its `$set` image. -/
def updateFirst (oid : String) (upd : UpdateData) : List Announcement → List Announcement
  | [] => []
  | d :: ds => if d._id == oid then applySet upd d :: ds else d :: updateFirst oid upd ds

/-- `collection.update_one({"_id": oid}, {"$set": upd})`:
returns `matched_count` and the store after the call. -/
def Store.update_one (s : Store) (oid : String) (upd : UpdateData) : Nat × Store :=
  match s.docs.find? (fun d => d._id == oid) with
  | none => (0, s)
  | some _ => (1, { s with docs := updateFirst oid upd s.docs })

/-- Remove the first document whose `_id` is `oid`. -/
def deleteFirst (oid : String) : List Announcement → List Announcement
  | [] => []
  | d :: ds => if d._id == oid then ds else d :: deleteFirst oid ds

/-- `collection.delete_one({"_id": oid})`:
returns `deleted_count` and the store after the call. -/
def Store.delete_one (s : Store) (oid : String) : Nat × Store :=
  match s.docs.find? (fun d => d._id == oid) with
  | none => (0, s)
  | some _ => (1, { s with docs := deleteFirst oid s.docs })

/-- The error taxonomy: each `HTTPException` raised by the router, the
body-validation failure produced by FastAPI, and the unreachable crash
of `update_announcement` (indexing a `find_one` result that is `None`). -/
inductive ApiError where
  | forbidden
  | invalidId
  | notFound
  | validationError
  | internalError
deriving DecidableEq, Repr

/-- HTTP status code of each error. -/
def ApiError.statusCode : ApiError → Nat
  | .forbidden => 403
  | .invalidId => 400
  | .notFound => 404
  | .validationError => 422
  | .internalError => 500

/-- Parsed `AnnouncementCreate` body (already validated by pydantic). -/
structure AnnouncementCreate where
  message : String
  start_date : Option Timestamp
  expiration_date : Timestamp
deriving DecidableEq, Repr

/-- Parsed `AnnouncementUpdate` body (already validated by pydantic);
every field optional, absent and explicit-null both become `none`. -/
structure AnnouncementUpdate where
  message : Option String
  start_date : Option Timestamp
  expiration_date : Option Timestamp
deriving DecidableEq, Repr

/-- A raw JSON field before pydantic validation: missing from the
payload, explicitly `null`, or a (well-typed) value. -/
inductive RawField (α : Type) where
  | absent
  | null
  | val (a : α)
deriving DecidableEq, Repr

/-- Raw JSON body of a create request. -/
structure RawCreate where
  message : RawField String
  start_date : RawField Timestamp
  expiration_date : RawField Timestamp
deriving DecidableEq, Repr

/-- Raw JSON body of an update request. -/
structure RawUpdate where
  message : RawField String
  start_date : RawField Timestamp
  expiration_date : RawField Timestamp
deriving DecidableEq, Repr

/-- The pydantic constraint `Field(..., min_length=1, max_length=500)`. -/
def validMessage (m : String) : Bool :=
  1 ≤ m.length && m.length ≤ 500

/-- `Optional[...] = None` pydantic field: absent and explicit `null`
both parse to `None`, a value to itself. -/
def optionalField {α : Type} : RawField α → Option α
  | .absent => none
  | .null => none
  | .val a => some a

/-- Pydantic validation of `AnnouncementCreate`: `message` is a
required `str` within `[1, 500]`, `expiration_date` a required
`datetime`, `start_date` an `Optional[datetime] = None`. -/
def validateCreate (r : RawCreate) : Option AnnouncementCreate :=
  match r.message, r.expiration_date with
  | .val m, .val e =>
    if validMessage m then some ⟨m, optionalField r.start_date, e⟩ else none
  | _, _ => none

/-- Pydantic validation of `AnnouncementUpdate`: every field is
`Optional = None`; a supplied `message` must be within `[1, 500]`. -/
def validateUpdate (r : RawUpdate) : Option AnnouncementUpdate :=
  match r.message with
  | .val m =>
    if validMessage m then
      some ⟨some m, optionalField r.start_date, optionalField r.expiration_date⟩
    else none
  | _ => some ⟨none, optionalField r.start_date, optionalField r.expiration_date⟩

/-- The Mongo query of `get_announcements`:
`expiration_date > now` AND (`start_date` is null OR `start_date ≤ now`). -/
def activeQuery (now : Timestamp) (d : Announcement) : Bool :=
  decide (now < d.expiration_date) &&
    (match d.start_date with
     | none => true
     | some t => decide (t ≤ now))

/-- `GET /api/announcements/` (`get_announcements`): the public
list-active route; filters by `activeQuery` at the current time. -/
def get_announcements (now : Timestamp) (s : Store) : List AnnouncementOut :=
  (s.docs.filter (activeQuery now)).map toOut

/-- `GET /api/announcements/all` (`get_all_announcements`):
role-gated, returns every document unfiltered. -/
def get_all_announcements (current_user : User) (s : Store) :
    Except ApiError (List AnnouncementOut) :=
  if !isPrivileged current_user then .error .forbidden
  else .ok (s.docs.map toOut)

/-- `POST /api/announcements/` handler (`create_announcement`), after
body validation: role check, then insert with
`created_at = updated_at = now`, returning the document with its id. -/
def create_announcement (current_user : User) (announcement_data : AnnouncementCreate)
    (now : Timestamp) (s : Store) : Except ApiError AnnouncementOut × Store :=
  if !isPrivileged current_user then (.error .forbidden, s)
  else
    let announcement : Announcement :=
      { _id := ""
        message := announcement_data.message
        start_date := announcement_data.start_date
        expiration_date := announcement_data.expiration_date
        created_at := now
        updated_at := now }
    let r := s.insert_one announcement
    (.ok (toOut { announcement with _id := r.1 }), r.2)

/-- `PUT /api/announcements/{announcement_id}` handler
(`update_announcement`), after body validation: role check, id parse,
`$set` of the supplied fields plus `updated_at`, 404 when nothing
matched, then re-fetch and return the updated document. -/
def update_announcement (announcement_id : String) (current_user : User)
    (announcement_data : AnnouncementUpdate) (now : Timestamp) (s : Store) :
    Except ApiError AnnouncementOut × Store :=
  if !isPrivileged current_user then (.error .forbidden, s)
  else
    match parseObjectId announcement_id with
    | none => (.error .invalidId, s)
    | some object_id =>
      let update_data : UpdateData :=
        { updated_at := now
          message := announcement_data.message
          start_date := announcement_data.start_date
          expiration_date := announcement_data.expiration_date }
      let r := s.update_one object_id update_data
      if r.1 == 0 then (.error .notFound, r.2)
      else
        match r.2.find_one object_id with
        | none => (.error .internalError, r.2)
        | some announcement => (.ok (toOut announcement), r.2)

/-- `DELETE /api/announcements/{announcement_id}` handler
(`delete_announcement`): role check, id parse, delete, 404 when
nothing deleted, confirmation message on success. -/
def delete_announcement (announcement_id : String) (current_user : User)
    (s : Store) : Except ApiError String × Store :=
  if !isPrivileged current_user then (.error .forbidden, s)
  else
    match parseObjectId announcement_id with
    | none => (.error .invalidId, s)
    | some object_id =>
      let r := s.delete_one object_id
      if r.1 == 0 then (.error .notFound, r.2)
      else (.ok "Announcement deleted successfully", r.2)

/-- The create route as FastAPI serves it: pydantic validation of the
raw body (422 on failure) before the handler runs. -/
def create_endpoint (current_user : User) (raw : RawCreate) (now : Timestamp)
    (s : Store) : Except ApiError AnnouncementOut × Store :=
  match validateCreate raw with
  | none => (.error .validationError, s)
  | some data => create_announcement current_user data now s

/-- The update route as FastAPI serves it: pydantic validation of the
raw body (422 on failure) before the handler runs. -/
def update_endpoint (announcement_id : String) (current_user : User)
    (raw : RawUpdate) (now : Timestamp) (s : Store) :
    Except ApiError AnnouncementOut × Store :=
  match validateUpdate raw with
  | none => (.error .validationError, s)
  | some data => update_announcement announcement_id current_user data now s

/-- Sample caller with the `"admin"` role. -/
def adminUser : User := ⟨some "admin"⟩

/-- Sample caller with the non-privileged `"student"` role. -/
def studentUser : User := ⟨some "student"⟩

/-- Sample well-formed `ObjectId` string. -/
def sampleId : String := "000000000000000000000001"

/-- Sample stored announcement (no `start_date`). -/
def sampleDoc : Announcement := ⟨sampleId, "hello", none, 100, 10, 10⟩

/-- Sample store holding `sampleDoc`. -/
def sampleStore : Store := ⟨[sampleDoc], 5⟩

/-- Sample stored announcement with a `start_date` set. -/
def startedDoc : Announcement := ⟨sampleId, "hello", some 3, 100, 10, 10⟩

/-- Sample store holding `startedDoc`. -/
def startedStore : Store := ⟨[startedDoc], 5⟩

/-! ### Helper lemmas about the store operations -/

/-- Response shaping is injective: the output carries every field. -/
theorem toOut_injective : Function.Injective toOut := by
  intro a b h
  cases a
  cases b
  simpa [toOut, AnnouncementOut.mk.injEq, Announcement.mk.injEq] using h

/-- Membership in a shaped list reflects membership in the documents. -/
theorem mem_map_toOut {d : Announcement} {l : List Announcement} :
    toOut d ∈ l.map toOut ↔ d ∈ l :=
  List.mem_map_of_injective toOut_injective

/-- `$set` never touches `_id`. -/
theorem applySet_id (upd : UpdateData) (d : Announcement) :
    (applySet upd d)._id = d._id := rfl

/-- A caller whose role is neither `"teacher"` nor `"admin"` fails the
role gate. -/
theorem isPrivileged_eq_false {u : User}
    (h1 : u.role ≠ some "teacher") (h2 : u.role ≠ some "admin") :
    isPrivileged u = false := by
  unfold isPrivileged
  rw [Bool.or_eq_false_iff]
  exact ⟨beq_eq_false_iff_ne.mpr h1, beq_eq_false_iff_ne.mpr h2⟩

/-- After replacing the first match, the first match is its `$set` image. -/
theorem find?_updateFirst {oid : String} (upd : UpdateData) :
    ∀ {l : List Announcement} {d : Announcement},
      l.find? (fun x => x._id == oid) = some d →
      (updateFirst oid upd l).find? (fun x => x._id == oid) = some (applySet upd d)
  | [], _, h => by simp at h
  | a :: l, d, h => by
    by_cases hb : (a._id == oid) = true
    · rw [List.find?_cons_of_pos (p := fun x : Announcement => x._id == oid) _ hb] at h
      cases h
      unfold updateFirst
      rw [if_pos hb]
      exact List.find?_cons_of_pos (p := fun x : Announcement => x._id == oid) _
        (by show ((applySet upd a)._id == oid) = true; rw [applySet_id]; exact hb)
    · rw [List.find?_cons_of_neg (p := fun x : Announcement => x._id == oid) _ hb] at h
      unfold updateFirst
      rw [if_neg hb, List.find?_cons_of_neg (p := fun x : Announcement => x._id == oid) _ hb]
      exact find?_updateFirst upd h

/-- Replacing a first match that does not exist changes nothing. -/
theorem updateFirst_of_none {oid : String} (upd : UpdateData) :
    ∀ {l : List Announcement},
      l.find? (fun x => x._id == oid) = none → updateFirst oid upd l = l
  | [], _ => rfl
  | a :: l, h => by
    rw [List.find?_eq_none] at h
    have ha : ¬(a._id == oid) = true := h a (List.mem_cons_self a l)
    unfold updateFirst
    rw [if_neg ha]
    exact congrArg (a :: ·) (updateFirst_of_none upd (List.find?_eq_none.mpr
      fun x hx => h x (List.mem_cons_of_mem a hx)))

/-- When stored ids are pairwise distinct, removing the first document
with a given id leaves no document with that id. -/
theorem find?_deleteFirst_none {oid : String} :
    ∀ {l : List Announcement}, (l.map Announcement._id).Nodup →
      (deleteFirst oid l).find? (fun x => x._id == oid) = none
  | [], _ => rfl
  | a :: l, h => by
    rw [List.map_cons, List.nodup_cons] at h
    by_cases hb : (a._id == oid) = true
    · unfold deleteFirst
      rw [if_pos hb]
      rw [List.find?_eq_none]
      intro x hx hxb
      exact h.1 (by
        rw [beq_iff_eq] at hb hxb
        rw [hb, ← hxb]
        exact List.mem_map_of_mem Announcement._id hx)
    · unfold deleteFirst
      rw [if_neg hb, List.find?_cons_of_neg (p := fun x : Announcement => x._id == oid) _ hb]
      exact find?_deleteFirst_none h.2

/-- `update_one` on a present id: one match, first match replaced. -/
theorem update_one_matched {s : Store} {oid : String} {d : Announcement}
    (hd : s.find_one oid = some d) (upd : UpdateData) :
    s.update_one oid upd = (1, { s with docs := updateFirst oid upd s.docs }) := by
  unfold Store.find_one at hd
  unfold Store.update_one
  rw [hd]

/-- `update_one` on an absent id: no match, store unchanged. -/
theorem update_one_unmatched {s : Store} {oid : String}
    (hd : s.find_one oid = none) (upd : UpdateData) :
    s.update_one oid upd = (0, s) := by
  unfold Store.find_one at hd
  unfold Store.update_one
  rw [hd]

/-- `delete_one` on a present id: one deletion, first match removed. -/
theorem delete_one_matched {s : Store} {oid : String} {d : Announcement}
    (hd : s.find_one oid = some d) :
    s.delete_one oid = (1, { s with docs := deleteFirst oid s.docs }) := by
  unfold Store.find_one at hd
  unfold Store.delete_one
  rw [hd]

/-- `delete_one` on an absent id: no deletion, store unchanged. -/
theorem delete_one_unmatched {s : Store} {oid : String}
    (hd : s.find_one oid = none) :
    s.delete_one oid = (0, s) := by
  unfold Store.find_one at hd
  unfold Store.delete_one
  rw [hd]

/-- Fetching the updated id after `update_one` yields the `$set` image
of the document it matched. -/
theorem find_one_updateFirst {s : Store} {oid : String} {d : Announcement}
    (hd : s.find_one oid = some d) (upd : UpdateData) :
    Store.find_one { s with docs := updateFirst oid upd s.docs } oid
      = some (applySet upd d) := by
  unfold Store.find_one at hd ⊢
  exact find?_updateFirst upd hd

/-- A successful update, spelled out: the role gate passes, the id
parses, the first matching document exists; the handler returns the
`$set` image of that document and the store holds it under that id. -/
theorem update_announcement_ok {u : User} (hu : isPrivileged u = true)
    {announcement_id oid : String} (hid : parseObjectId announcement_id = some oid)
    {s : Store} {d : Announcement} (hd : s.find_one oid = some d)
    (patch : AnnouncementUpdate) (now : Timestamp) :
    update_announcement announcement_id u patch now s =
      (.ok (toOut (applySet ⟨now, patch.message, patch.start_date, patch.expiration_date⟩ d)),
        { s with docs := updateFirst oid ⟨now, patch.message, patch.start_date, patch.expiration_date⟩ s.docs }) := by
  unfold update_announcement
  rw [hu, hid]
  simp only [Bool.not_true, Bool.false_eq_true, if_false]
  simp [update_one_matched hd, find_one_updateFirst hd]

/-- The Mongo active query as a proposition. -/
theorem activeQuery_iff (now : Timestamp) (d : Announcement) :
    activeQuery now d = true ↔
      (d.start_date = none ∨ ∃ t, d.start_date = some t ∧ t ≤ now) ∧
        now < d.expiration_date := by
  unfold activeQuery
  cases hsd : d.start_date with
  | none => simp
  | some t =>
    simp only [Bool.and_eq_true, decide_eq_true_eq, Option.some.injEq]
    constructor
    · rintro ⟨h1, h2⟩
      exact ⟨Or.inr ⟨t, rfl, h2⟩, h1⟩
    · rintro ⟨h1, h2⟩
      refine ⟨h2, ?_⟩
      rcases h1 with h | ⟨t', ht', hle⟩
      · exact absurd h (by simp)
      · cases ht'
        exact hle

/-- A successful create, spelled out: the role gate passes, the
document is appended with the generated id and both timestamps `now`,
and the response is its shaped form. -/
theorem create_announcement_ok {u : User} (hu : isPrivileged u = true)
    (data : AnnouncementCreate) (now : Timestamp) (s : Store) :
    create_announcement u data now s =
      (.ok (toOut ⟨genId s.nextId, data.message, data.start_date,
          data.expiration_date, now, now⟩),
        ⟨s.docs ++ [⟨genId s.nextId, data.message, data.start_date,
          data.expiration_date, now, now⟩], s.nextId + 1⟩) := by
  unfold create_announcement Store.insert_one
  rw [hu]
  simp

/-- Fetching a freshly inserted id finds the inserted document. -/
theorem find_one_after_insert {s : Store} (hfresh : s.find_one (genId s.nextId) = none)
    (doc : Announcement) (hdoc : doc._id = genId s.nextId) :
    Store.find_one ⟨s.docs ++ [doc], s.nextId + 1⟩ (genId s.nextId) = some doc := by
  unfold Store.find_one at hfresh ⊢
  rw [List.find?_append, hfresh]
  simp [List.find?, hdoc]

/-- A successful `validateUpdate` always carries
`optionalField raw.start_date` as the patch's `start_date`. -/
theorem validateUpdate_start_date {raw : RawUpdate} {patch : AnnouncementUpdate}
    (hval : validateUpdate raw = some patch) :
    patch.start_date = optionalField raw.start_date := by
  obtain ⟨msg, sd, ed⟩ := raw
  unfold validateUpdate at hval
  cases msg with
  | val m =>
    dsimp only at hval
    by_cases hv : validMessage m = true
    · rw [if_pos hv] at hval
      cases hval
      rfl
    · rw [if_neg hv] at hval
      cases hval
  | absent =>
    cases hval
    rfl
  | null =>
    cases hval
    rfl

/-- A message outside the `[1, 500]` length bounds fails the pydantic
constraint. -/
theorem validMessage_eq_false {m : String}
    (h : m.length = 0 ∨ 500 < m.length) : validMessage m = false := by
  unfold validMessage
  rw [Bool.and_eq_false_iff]
  rcases h with h | h
  · left
    rw [decide_eq_false_iff_not]
    omega
  · right
    rw [decide_eq_false_iff_not]
    omega

/-! ### The claims -/

/-- C1: for every store state and every fixed current time `now`,
`list_active` (`get_announcements`) returns exactly the records
satisfying the active predicate: (`start_date` is null OR
`start_date ≤ now`) AND `expiration_date > now`; records with
`expiration_date ≤ now`, or with `start_date > now`, are absent even
when the other condition holds. -/
theorem C1_list_active_exactly_active (now : Timestamp) (s : Store) (d : Announcement) :
    toOut d ∈ get_announcements now s ↔
      d ∈ s.docs ∧
        (d.start_date = none ∨ ∃ t, d.start_date = some t ∧ t ≤ now) ∧
        now < d.expiration_date := by
  unfold get_announcements
  rw [mem_map_toOut, List.mem_filter, activeQuery_iff]

/-- C2: for every caller whose role is not in {"teacher","admin"},
each of create, update, delete and list_all fails with Forbidden (403)
and the store state is unchanged. -/
theorem C2_nonprivileged_forbidden (u : User)
    (h1 : u.role ≠ some "teacher") (h2 : u.role ≠ some "admin")
    (data : AnnouncementCreate) (patch : AnnouncementUpdate)
    (announcement_id : String) (now : Timestamp) (s : Store) :
    create_announcement u data now s = (.error .forbidden, s) ∧
    update_announcement announcement_id u patch now s = (.error .forbidden, s) ∧
    delete_announcement announcement_id u s = (.error .forbidden, s) ∧
    get_all_announcements u s = .error .forbidden ∧
    ApiError.forbidden.statusCode = 403 := by
  have hp := isPrivileged_eq_false h1 h2
  refine ⟨?_, ?_, ?_, ?_, rfl⟩ <;>
    simp [create_announcement, update_announcement, delete_announcement,
      get_all_announcements, hp]

/-- Witness for C2 at a concrete student caller and store. -/
theorem C2_nonprivileged_forbidden_witness :
    create_announcement studentUser ⟨"hi", none, 5⟩ 0 sampleStore
        = (.error .forbidden, sampleStore) ∧
    update_announcement "x" studentUser ⟨none, none, none⟩ 0 sampleStore
        = (.error .forbidden, sampleStore) ∧
    delete_announcement "x" studentUser sampleStore
        = (.error .forbidden, sampleStore) ∧
    get_all_announcements studentUser sampleStore = .error .forbidden ∧
    ApiError.forbidden.statusCode = 403 :=
  C2_nonprivileged_forbidden studentUser (by decide) (by decide)
    ⟨"hi", none, 5⟩ ⟨none, none, none⟩ "x" 0 sampleStore

/-- C5: for every store state and fixed `now`, `list_all` called by a
privileged caller returns every record unfiltered, and its result is a
superset, by membership and count, of `list_active` at the same `now`. -/
theorem C5_list_all_superset (u : User) (hu : isPrivileged u = true)
    (now : Timestamp) (s : Store) :
    ∃ all, get_all_announcements u s = .ok all ∧
      all = s.docs.map toOut ∧
      (∀ x, x ∈ get_announcements now s → x ∈ all) ∧
      (get_announcements now s).length ≤ all.length := by
  refine ⟨s.docs.map toOut, ?_, rfl, ?_, ?_⟩
  · simp [get_all_announcements, hu]
  · intro x hx
    unfold get_announcements at hx
    exact ((List.filter_sublist s.docs).map toOut).subset hx
  · unfold get_announcements
    exact ((List.filter_sublist s.docs).map toOut).length_le

/-- Witness for C5 at a concrete admin caller and store. -/
theorem C5_list_all_superset_witness :
    ∃ all, get_all_announcements adminUser sampleStore = .ok all ∧
      all = sampleStore.docs.map toOut ∧
      (∀ x, x ∈ get_announcements 0 sampleStore → x ∈ all) ∧
      (get_announcements 0 sampleStore).length ≤ all.length :=
  C5_list_all_superset adminUser (by decide) 0 sampleStore

/-- C9: the role check precedes identifier parsing and lookup in update
and delete: a non-privileged caller receives Forbidden both on a
malformed id (never InvalidIdentifier) and on a well-formed id of a
nonexistent record (never NotFound). -/
theorem C9_role_check_precedes_id_checks (u : User)
    (h1 : u.role ≠ some "teacher") (h2 : u.role ≠ some "admin")
    (now : Timestamp) (s : Store) :
    (∀ announcement_id, parseObjectId announcement_id = none →
      (∀ patch, update_announcement announcement_id u patch now s
          = (.error .forbidden, s)) ∧
      delete_announcement announcement_id u s = (.error .forbidden, s)) ∧
    (∀ announcement_id oid, parseObjectId announcement_id = some oid →
      s.find_one oid = none →
      (∀ patch, update_announcement announcement_id u patch now s
          = (.error .forbidden, s)) ∧
      delete_announcement announcement_id u s = (.error .forbidden, s)) := by
  have hp := isPrivileged_eq_false h1 h2
  constructor
  · intro aid _
    constructor
    · intro patch
      simp [update_announcement, hp]
    · simp [delete_announcement, hp]
  · intro aid oid _ _
    constructor
    · intro patch
      simp [update_announcement, hp]
    · simp [delete_announcement, hp]

/-- Witness for C9: a student caller gets Forbidden on a malformed id
and on a well-formed id that matches no record. -/
theorem C9_role_check_precedes_id_checks_witness :
    update_announcement "abc" studentUser ⟨none, none, none⟩ 0 sampleStore
        = (.error .forbidden, sampleStore) ∧
    delete_announcement "000000000000000000000002" studentUser sampleStore
        = (.error .forbidden, sampleStore) := by
  have h := C9_role_check_precedes_id_checks studentUser (by decide) (by decide) 0 sampleStore
  exact ⟨(h.1 "abc" (by decide)).1 ⟨none, none, none⟩,
    (h.2 "000000000000000000000002" "000000000000000000000002"
      (by decide) (by decide)).2⟩

/-- C3: for every existing record and every update patch issued by a
privileged caller, update applies only the fields present in the
patch: omitted fields keep their previous values, `id` and
`created_at` are never modified, and `updated_at` is refreshed on
every successful update. -/
theorem C3_update_applies_only_patch_fields (u : User) (hu : isPrivileged u = true)
    (announcement_id oid : String) (hid : parseObjectId announcement_id = some oid)
    (s : Store) (d : Announcement) (hd : s.find_one oid = some d)
    (patch : AnnouncementUpdate) (now : Timestamp) :
    ∃ d' s',
      update_announcement announcement_id u patch now s = (.ok (toOut d'), s') ∧
      s'.find_one oid = some d' ∧
      d'._id = d._id ∧
      d'.created_at = d.created_at ∧
      d'.updated_at = now ∧
      (∀ m, patch.message = some m → d'.message = m) ∧
      (patch.message = none → d'.message = d.message) ∧
      (∀ t, patch.start_date = some t → d'.start_date = some t) ∧
      (patch.start_date = none → d'.start_date = d.start_date) ∧
      (∀ t, patch.expiration_date = some t → d'.expiration_date = t) ∧
      (patch.expiration_date = none → d'.expiration_date = d.expiration_date) := by
  refine ⟨applySet ⟨now, patch.message, patch.start_date, patch.expiration_date⟩ d, _,
    update_announcement_ok hu hid hd patch now, find_one_updateFirst hd _,
    rfl, rfl, rfl, ?_, ?_, ?_, ?_, ?_, ?_⟩
  · intro m hm
    simp [applySet, hm]
  · intro hm
    simp [applySet, hm]
  · intro t ht
    simp [applySet, ht]
  · intro ht
    simp [applySet, ht]
  · intro t ht
    simp [applySet, ht]
  · intro ht
    simp [applySet, ht]

/-- Witness for C3: a message-only patch on a concrete store changes
only `message` and `updated_at`. -/
theorem C3_update_applies_only_patch_fields_witness :
    ∃ d' s',
      update_announcement sampleId adminUser ⟨some "new", none, none⟩ 50 sampleStore
          = (.ok (toOut d'), s') ∧
      s'.find_one sampleId = some d' ∧
      d'._id = sampleDoc._id ∧
      d'.created_at = sampleDoc.created_at ∧
      d'.updated_at = 50 ∧
      (∀ m, (some "new" : Option String) = some m → d'.message = m) ∧
      ((some "new" : Option String) = none → d'.message = sampleDoc.message) ∧
      (∀ t, (none : Option Timestamp) = some t → d'.start_date = some t) ∧
      ((none : Option Timestamp) = none → d'.start_date = sampleDoc.start_date) ∧
      (∀ t, (none : Option Timestamp) = some t → d'.expiration_date = t) ∧
      ((none : Option Timestamp) = none → d'.expiration_date = sampleDoc.expiration_date) :=
  C3_update_applies_only_patch_fields adminUser (by decide) sampleId sampleId
    (by decide) sampleStore sampleDoc (by decide) ⟨some "new", none, none⟩ 50

/-- C4: for every valid create input from a privileged caller, create
persists a new record whose input fields equal the input, with
`created_at = updated_at = now`, returns it including the generated
id, and a subsequent fetch by that id yields a record equal to the
input in all input fields with `created_at == updated_at`. -/
theorem C4_create_roundtrip (u : User) (hu : isPrivileged u = true)
    (data : AnnouncementCreate) (now : Timestamp) (s : Store)
    (hfresh : s.find_one (genId s.nextId) = none) :
    ∃ out s',
      create_announcement u data now s = (.ok out, s') ∧
      out.id = genId s.nextId ∧
      out.message = data.message ∧
      out.start_date = data.start_date ∧
      out.expiration_date = data.expiration_date ∧
      out.created_at = now ∧
      out.updated_at = now ∧
      ∃ fetched, s'.find_one out.id = some fetched ∧
        fetched._id = out.id ∧
        fetched.message = data.message ∧
        fetched.start_date = data.start_date ∧
        fetched.expiration_date = data.expiration_date ∧
        fetched.created_at = now ∧
        fetched.updated_at = now ∧
        fetched.created_at = fetched.updated_at := by
  refine ⟨_, _, create_announcement_ok hu data now s, rfl, rfl, rfl, rfl, rfl, rfl,
    ⟨genId s.nextId, data.message, data.start_date, data.expiration_date, now, now⟩,
    ?_, rfl, rfl, rfl, rfl, rfl, rfl, rfl⟩
  exact find_one_after_insert hfresh _ rfl

/-- Witness for C4 at a concrete admin caller, input and store. -/
theorem C4_create_roundtrip_witness :
    ∃ out s',
      create_announcement adminUser ⟨"msg", some 2, 99⟩ 7 sampleStore = (.ok out, s') ∧
      out.id = genId sampleStore.nextId ∧
      out.message = "msg" ∧
      out.start_date = some 2 ∧
      out.expiration_date = 99 ∧
      out.created_at = 7 ∧
      out.updated_at = 7 ∧
      ∃ fetched, s'.find_one out.id = some fetched ∧
        fetched._id = out.id ∧
        fetched.message = "msg" ∧
        fetched.start_date = some 2 ∧
        fetched.expiration_date = 99 ∧
        fetched.created_at = 7 ∧
        fetched.updated_at = 7 ∧
        fetched.created_at = fetched.updated_at :=
  C4_create_roundtrip adminUser (by decide) ⟨"msg", some 2, 99⟩ 7 sampleStore (by decide)

/-- C6: for every privileged caller, update and delete fail with
InvalidIdentifier (400) on a malformed id and with NotFound (404) on a
well-formed id matching no record, leaving the store unchanged in both
error cases; deleting an id twice yields NotFound on the second call. -/
theorem C6_update_delete_error_cases (u : User) (hu : isPrivileged u = true)
    (now : Timestamp) (s : Store) :
    (∀ announcement_id, parseObjectId announcement_id = none →
      (∀ patch, update_announcement announcement_id u patch now s
          = (.error .invalidId, s)) ∧
      delete_announcement announcement_id u s = (.error .invalidId, s)) ∧
    (∀ announcement_id oid, parseObjectId announcement_id = some oid →
      s.find_one oid = none →
      (∀ patch, update_announcement announcement_id u patch now s
          = (.error .notFound, s)) ∧
      delete_announcement announcement_id u s = (.error .notFound, s)) ∧
    (∀ announcement_id oid, parseObjectId announcement_id = some oid →
      (s.docs.map Announcement._id).Nodup →
      ∀ msg s', delete_announcement announcement_id u s = (.ok msg, s') →
        delete_announcement announcement_id u s' = (.error .notFound, s')) ∧
    ApiError.invalidId.statusCode = 400 ∧
    ApiError.notFound.statusCode = 404 := by
  refine ⟨?_, ?_, ?_, rfl, rfl⟩
  · intro aid hpid
    constructor
    · intro patch
      simp [update_announcement, hu, hpid]
    · simp [delete_announcement, hu, hpid]
  · intro aid oid hpid hfind
    constructor
    · intro patch
      unfold update_announcement
      rw [hu, hpid]
      simp [update_one_unmatched hfind]
    · unfold delete_announcement
      rw [hu, hpid]
      simp [delete_one_unmatched hfind]
  · intro aid oid hpid hnodup msg s' hdel
    unfold delete_announcement at hdel
    rw [hu, hpid] at hdel
    simp only [Bool.not_true, Bool.false_eq_true, if_false] at hdel
    cases hfind : s.docs.find? (fun x => x._id == oid) with
    | none =>
      rw [delete_one_unmatched hfind] at hdel
      simp at hdel
    | some a =>
      rw [delete_one_matched hfind] at hdel
      simp only [beq_self_eq_true, Nat.one_ne_zero, if_neg, beq_iff_eq,
        one_ne_zero, if_false, Prod.mk.injEq, Except.ok.injEq] at hdel
      obtain ⟨-, hs'⟩ := hdel
      subst hs'
      unfold delete_announcement
      rw [hu, hpid]
      have hnone : Store.find_one { s with docs := deleteFirst oid s.docs } oid = none :=
        find?_deleteFirst_none hnodup
      simp [delete_one_unmatched hnone]

/-- Witness for C6: an admin caller gets 400 on a malformed id, 404 on
an absent id, and 404 on the second of two deletes of the same id. -/
theorem C6_update_delete_error_cases_witness :
    update_announcement "abc" adminUser ⟨none, none, none⟩ 0 sampleStore
        = (.error .invalidId, sampleStore) ∧
    delete_announcement "000000000000000000000002" adminUser sampleStore
        = (.error .notFound, sampleStore) ∧
    delete_announcement sampleId adminUser ⟨[], 5⟩ = (.error .notFound, ⟨[], 5⟩) := by
  have h := C6_update_delete_error_cases adminUser (by decide) 0 sampleStore
  refine ⟨(h.1 "abc" (by decide)).1 ⟨none, none, none⟩,
    (h.2.1 "000000000000000000000002" "000000000000000000000002"
      (by decide) (by decide)).2, ?_⟩
  exact h.2.2.1 sampleId sampleId (by decide) (by decide)
    "Announcement deleted successfully" ⟨[], 5⟩ rfl

/-- C7: for every record whose `start_date` is non-null, no update
patch can set it back to null: a patch omitting `start_date` or
supplying it explicitly as null leaves the stored value unchanged,
absent and explicitly-null being indistinguishable to the update. -/
theorem C7_cannot_clear_start_date (u : User) (hu : isPrivileged u = true)
    (announcement_id oid : String) (hid : parseObjectId announcement_id = some oid)
    (s : Store) (d : Announcement) (hd : s.find_one oid = some d)
    (t0 : Timestamp) (hsd : d.start_date = some t0)
    (raw : RawUpdate) (hraw : raw.start_date = .absent ∨ raw.start_date = .null)
    (patch : AnnouncementUpdate) (hval : validateUpdate raw = some patch)
    (now : Timestamp) :
    patch.start_date = none ∧
    validateUpdate { raw with start_date := .absent } =
      validateUpdate { raw with start_date := .null } ∧
    ∃ d' s', update_endpoint announcement_id u raw now s = (.ok (toOut d'), s') ∧
      d'.start_date = some t0 := by
  have hopt : optionalField raw.start_date = (none : Option Timestamp) := by
    rcases hraw with h | h <;> rw [h] <;> rfl
  have hps : patch.start_date = none := (validateUpdate_start_date hval).trans hopt
  refine ⟨hps, ?_, applySet ⟨now, patch.message, patch.start_date,
      patch.expiration_date⟩ d,
    { s with docs := updateFirst oid ⟨now, patch.message, patch.start_date,
        patch.expiration_date⟩ s.docs }, ?_, ?_⟩
  · obtain ⟨msg, sd, ed⟩ := raw
    cases msg <;> rfl
  · unfold update_endpoint
    rw [hval]
    exact update_announcement_ok hu hid hd patch now
  · simp [applySet, hps, hsd]

/-- Witness for C7: an explicit-null `start_date` patch leaves a
concrete record's `start_date` set. -/
theorem C7_cannot_clear_start_date_witness :
    (⟨some "new", none, none⟩ : AnnouncementUpdate).start_date = none ∧
    validateUpdate { (⟨.val "new", .null, .absent⟩ : RawUpdate) with
        start_date := .absent } =
      validateUpdate { (⟨.val "new", .null, .absent⟩ : RawUpdate) with
        start_date := .null } ∧
    ∃ d' s', update_endpoint sampleId adminUser ⟨.val "new", .null, .absent⟩ 50 startedStore
        = (.ok (toOut d'), s') ∧
      d'.start_date = some 3 :=
  C7_cannot_clear_start_date adminUser (by decide) sampleId sampleId (by decide)
    startedStore startedDoc (by decide) 3 (by decide)
    ⟨.val "new", .null, .absent⟩ (Or.inr rfl) ⟨some "new", none, none⟩ (by decide) 50

/-- C8: a create whose message is empty or over 500 characters or
whose required `expiration_date` is missing, and an update whose
supplied message violates the same bounds, are rejected with
ValidationError (422) before the handler runs, and no record is
created or modified. -/
theorem C8_validation_rejects (u : User) (announcement_id : String)
    (now : Timestamp) (s : Store) :
    (∀ raw : RawCreate, ∀ m, raw.message = .val m →
      (m.length = 0 ∨ 500 < m.length) →
      create_endpoint u raw now s = (.error .validationError, s)) ∧
    (∀ raw : RawCreate, raw.expiration_date = .absent →
      create_endpoint u raw now s = (.error .validationError, s)) ∧
    (∀ raw : RawUpdate, ∀ m, raw.message = .val m →
      (m.length = 0 ∨ 500 < m.length) →
      update_endpoint announcement_id u raw now s = (.error .validationError, s)) ∧
    ApiError.validationError.statusCode = 422 := by
  refine ⟨?_, ?_, ?_, rfl⟩
  · intro raw m hm hlen
    obtain ⟨rm, rsd, red⟩ := raw
    cases hm
    cases red <;>
      simp [create_endpoint, validateCreate, validMessage_eq_false hlen]
  · intro raw hred
    obtain ⟨rm, rsd, red⟩ := raw
    cases hred
    cases rm <;> simp [create_endpoint, validateCreate]
  · intro raw m hm hlen
    obtain ⟨rm, rsd, red⟩ := raw
    cases hm
    simp [update_endpoint, validateUpdate, validMessage_eq_false hlen]

/-- Witness for C8: an empty message and a missing `expiration_date`
are rejected with 422 on a concrete store. -/
theorem C8_validation_rejects_witness :
    create_endpoint adminUser ⟨.val "", .absent, .val 9⟩ 0 sampleStore
        = (.error .validationError, sampleStore) ∧
    create_endpoint adminUser ⟨.val "hi", .absent, .absent⟩ 0 sampleStore
        = (.error .validationError, sampleStore) ∧
    update_endpoint sampleId adminUser ⟨.val "", .absent, .absent⟩ 0 sampleStore
        = (.error .validationError, sampleStore) := by
  have h := C8_validation_rejects adminUser sampleId 0 sampleStore
  exact ⟨h.1 ⟨.val "", .absent, .val 9⟩ "" rfl (Or.inl (by decide)),
    h.2.1 ⟨.val "hi", .absent, .absent⟩ rfl,
    h.2.2.1 ⟨.val "", .absent, .absent⟩ "" rfl (Or.inl (by decide))⟩

/-- C10: for every existing record, an update by a privileged caller
with an empty patch (no field supplied) succeeds: it changes only
`updated_at`, leaves every other field unchanged, and returns the
record. -/
theorem C10_empty_patch_succeeds (u : User) (hu : isPrivileged u = true)
    (announcement_id oid : String) (hid : parseObjectId announcement_id = some oid)
    (s : Store) (d : Announcement) (hd : s.find_one oid = some d)
    (now : Timestamp) :
    ∃ d' s',
      update_endpoint announcement_id u ⟨.absent, .absent, .absent⟩ now s
          = (.ok (toOut d'), s') ∧
      d'.updated_at = now ∧
      d'._id = d._id ∧
      d'.message = d.message ∧
      d'.start_date = d.start_date ∧
      d'.expiration_date = d.expiration_date ∧
      d'.created_at = d.created_at ∧
      s'.find_one oid = some d' := by
  refine ⟨applySet ⟨now, none, none, none⟩ d, _, ?_, rfl, rfl, rfl, rfl, rfl, rfl,
    find_one_updateFirst hd _⟩
  unfold update_endpoint
  exact update_announcement_ok hu hid hd ⟨none, none, none⟩ now

/-- Witness for C10: an all-absent patch on a concrete store succeeds
and changes only `updated_at`. -/
theorem C10_empty_patch_succeeds_witness :
    ∃ d' s',
      update_endpoint sampleId adminUser ⟨.absent, .absent, .absent⟩ 60 sampleStore
          = (.ok (toOut d'), s') ∧
      d'.updated_at = 60 ∧
      d'._id = sampleDoc._id ∧
      d'.message = sampleDoc.message ∧
      d'.start_date = sampleDoc.start_date ∧
      d'.expiration_date = sampleDoc.expiration_date ∧
      d'.created_at = sampleDoc.created_at ∧
      s'.find_one sampleId = some d' :=
  C10_empty_patch_succeeds adminUser (by decide) sampleId sampleId (by decide)
    sampleStore sampleDoc (by decide) 60

end AnnouncementsRouter
